import Mathlib

/-!
Verification development for the media-inventory pipeline
(`ai_powerful_vector`): a shallow embedding, in Lean 4, of the parts of the
source that the specification's claims are about, followed by theorems
settling each claim.

Embedded modules:
* `src/models.py`                       — `DropboxFile`, `ProcessedFile`, `ProcessingStatus`
* `src/config.py`                       — the feature flags consulted by the pipeline
* `src/services/replicate_service.py`   — caption stitching and tag extraction (pure string code)
* `src/services/weaviate_service.py`    — `store_file` / `get_file_by_path` over an explicit store state
* `src/services/processing_service.py`  — the per-file pipeline `_process_single_file`,
  the batch loops of the processing entry points, and the pause/stop gates
* `src/services/local_cache_service.py` — the SQLite inventory cache as a list of rows
* `src/services/dropbox_service.py`     — the incremental/full sync engine over an abstract remote
* `src/main.py`                         — the route-level guard of the start endpoints

External effects (Dropbox, Replicate, CLIP, Weaviate network calls) are
modelled as explicit oracle inputs; persistent stores are explicit state
values threaded through the functions.  Float vectors are carried as
`List Int`: no claim inspects a vector component, only emptiness and length.
-/

/- ===================== src/config.py ===================== -/

/-- Feature flags of `Config` (src/config.py) that the per-file pipeline
reads.  Each field mirrors one environment-derived class attribute. -/
structure Config where
  skip_duplicate_files : Bool
  track_content_hash : Bool
  use_thumbnails : Bool
  use_video_previews : Bool
  extract_video_thumbnail : Bool
deriving DecidableEq

/- ===================== src/models.py ===================== -/

/-- `DropboxFile` (src/models.py).  `modified : datetime` is carried as its
ISO-format string: no claim compares timestamps. -/
structure DropboxFile where
  id : String
  name : String
  path_lower : String
  path_display : String
  size : Nat
  modified : String
  content_hash : Option String
  is_downloadable : Bool
  file_type : String
  extension : String
deriving DecidableEq

/-- `ProcessedFile` (src/models.py).  The free-form `metadata` dict built in
`_process_single_file` is flattened into its four keys. -/
structure ProcessedFile where
  id : String
  dropbox_path : String
  file_name : String
  file_type : String
  file_extension : String
  file_size : Nat
  modified_date : String
  processed_date : String
  embedding : List Int
  caption : Option String
  tags : List String
  metadata_content_hash : Option String
  metadata_path_lower : String
  metadata_processing_url : String
  metadata_optimized : Bool
  public_url : Option String
  thumbnail_url : Option String
deriving DecidableEq

/-- `ProcessingStatus` (src/models.py); start/end times are not modelled (no
claim reads them). -/
structure ProcessingStatus where
  status : String
  files_processed : Nat
  files_total : Nat
  current_file : Option String
  errors : List String
deriving DecidableEq

/- ===================== src/services/replicate_service.py ===================== -/

/-- Python `str.lower()`, character by character (the captions involved are
ASCII, where `Char.toLower` agrees with Python). -/
def pyLower (s : String) : String := ⟨s.data.map Char.toLower⟩

/-- Python `str.strip()`: whitespace removed from both ends. -/
def pyStrip (s : String) : String :=
  ⟨((s.data.dropWhile Char.isWhitespace).reverse.dropWhile Char.isWhitespace).reverse⟩

/-- The duplicate-collapsing loop of `ReplicateService._combine_frame_captions`
(src/services/replicate_service.py lines 179-186): keep the first caption for
each lower-cased, stripped key, preserving order.  `seen` is the Python set of
keys already emitted. -/
def uniqueCaptionsAux : List String → List String → List String
  | [], _ => []
  | c :: rest, seen =>
    let key := pyStrip (pyLower c)
    if key ∈ seen then uniqueCaptionsAux rest seen
    else c :: uniqueCaptionsAux rest (key :: seen)

/-- Duplicate collapsing started from an empty `seen` set. -/
def uniqueCaptions (cs : List String) : List String := uniqueCaptionsAux cs []

/-- `ReplicateService._combine_frame_captions` (src/services/replicate_service.py
lines 161-210).  The `frame_details` parameter of the Python function is never
read in its body and is omitted.  The `[]` case of the inner match mirrors the
`except` fallback (an empty `unique_captions` would raise `IndexError` inside
the `try`, caught to return "Video with multiple scenes"); it is unreachable for
non-empty input. -/
def combineFrameCaptions (frame_captions : List String) : String :=
  match frame_captions with
  | [] => "Video content"
  | [c] => "Video showing " ++ pyLower c
  | _ =>
    match uniqueCaptions frame_captions with
    | [] => "Video with multiple scenes"
    | [u] => "Video showing " ++ pyLower u
    | [a, b] => "Video showing " ++ pyLower a ++ ", then " ++ pyLower b
    | [a, b, c] =>
      "Video showing " ++ pyLower a ++ ", followed by " ++ pyLower b ++
        ", and ending with " ++ pyLower c
    | a :: rest =>
      let beginning := pyLower a
      let middle_parts := rest.dropLast
      let ending := pyLower (rest.getLastD "")
      if middle_parts.isEmpty then
        "Video beginning with " ++ beginning ++ " and ending with " ++ ending
      else
        "Video beginning with " ++ beginning ++ ", showing " ++
          String.intercalate ", " (middle_parts.map pyLower) ++
          ", and ending with " ++ ending

/-- Python's `sub in s` substring test, used by tag extraction: some suffix of
`s` starts with `sub`. -/
def strContains (s sub : String) : Bool := s.data.tails.any (sub.data.isPrefixOf ·)

/-- The `common_objects` keyword list of
`ReplicateService.extract_tags_from_caption`. -/
def commonObjects : List String :=
  ["person", "people", "man", "woman", "child", "baby",
   "car", "bike", "bicycle", "motorcycle", "truck", "bus",
   "dog", "cat", "bird", "horse", "animal",
   "tree", "flower", "grass", "sky", "cloud", "mountain", "beach", "ocean",
   "house", "building", "street", "road", "bridge",
   "food", "cake", "pizza", "burger", "drink",
   "phone", "computer", "laptop", "camera",
   "happy", "smile", "laughing", "sad", "excited"]

/-- `ReplicateService.extract_tags_from_caption`: keywords found as substrings
of the lower-cased caption.  Python returns `list(set(found_tags))` whose order
is unspecified; the model keeps first-occurrence order (no claim reads tag
order). -/
def extractTagsFromCaption (caption : String) : List String :=
  if caption = "" then []
  else
    let caption_lower := pyLower caption
    (commonObjects.filter (fun obj => strContains caption_lower obj)).eraseDups

/-- Append the elements of `l` not already present, modelling `set.update` with
first-insertion order (Python set order is unspecified; no claim reads it). -/
def addAllNew (acc l : List String) : List String :=
  l.foldl (fun a x => if x ∈ a then a else a ++ [x]) acc

/-- The `video_keywords` list of `ReplicateService.extract_video_tags`. -/
def videoKeywords : List String :=
  ["motion", "movement", "action", "sequence", "scene", "clip",
   "footage", "recording", "film", "movie", "animation"]

/-- `ReplicateService.extract_video_tags`: the literal "video" tag, tags from
the combined description, tags from each frame caption, and video keywords
occurring in the description. -/
def extractVideoTags (video_description : Option String) (frame_captions : List String) : List String :=
  let tags := ["video"]
  let tags := match video_description with
    | some d => addAllNew tags (extractTagsFromCaption d)
    | none => tags
  let tags := frame_captions.foldl (fun a c => addAllNew a (extractTagsFromCaption c)) tags
  let description_lower := pyLower (video_description.getD "")
  videoKeywords.foldl
    (fun a k => if strContains description_lower k then (if k ∈ a then a else a ++ [k]) else a)
    tags

/-- `ReplicateService.analyze_video_frames`: caption each frame (frames whose
caption call fails are skipped), then stitch.  The per-frame caption backend is
the oracle `captionOf`, applied to the frame's served URL. -/
def analyzeVideoFrames (captionOf : String → Option String) (frameUrlOf : String → String)
    (frame_paths : List String) : String :=
  if frame_paths = [] then "Video file - no frames extracted for analysis"
  else
    let frame_captions := frame_paths.filterMap (fun p => captionOf (frameUrlOf p))
    if frame_captions = [] then "Video file - frame analysis failed"
    else combineFrameCaptions frame_captions

/- ===================== src/services/weaviate_service.py ===================== -/

/-- One object of the `DropboxFile` class in the vector store, as written by
`WeaviateService.store_file`: the `data_object` fields read back by the
pipeline, plus the vector.  `content_hash` is
`metadata.get("content_hash", id)`, which is the candidate's (possibly absent)
hash since the `metadata` dict always carries the key. -/
structure StoredObject where
  uuid : String
  dropbox_id : String
  dropbox_path : String
  file_name : String
  file_type : String
  caption : Option String
  tags : List String
  content_hash : Option String
  processed_date : String
  vector : List Int
deriving DecidableEq

/-- `WeaviateService.get_file_by_path`: the `Equal` filter on `dropbox_path`
with `LIMIT 1` — the first object whose path matches. -/
def getFileByPath (db : List StoredObject) (path : String) : Option StoredObject :=
  db.find? (fun o => o.dropbox_path = path)

/-- Build the stored object for a processed file
(`data_object` in `WeaviateService.store_file`). -/
def mkStoredObject (pf : ProcessedFile) (uuid : String) : StoredObject :=
  { uuid := uuid
    dropbox_id := pf.id
    dropbox_path := pf.dropbox_path
    file_name := pf.file_name
    file_type := pf.file_type
    caption := pf.caption
    tags := pf.tags
    content_hash := pf.metadata_content_hash
    processed_date := pf.processed_date
    vector := pf.embedding }

/-- `WeaviateService.store_file` (src/services/weaviate_service.py lines
256-326): reject an absent/empty embedding before any write (the two guards at
lines 266-274 both collapse to emptiness of the vector); otherwise update the
existing object for the path in place, or create a new one with a fresh UUID.
Returns the success flag and the new store state. -/
def storeFile (pf : ProcessedFile) (db : List StoredObject) (newUuid : String) :
    Bool × List StoredObject :=
  if pf.embedding = [] then (false, db)
  else if pf.embedding.length = 0 then (false, db)
  else
    match getFileByPath db pf.dropbox_path with
    | some existing =>
      (true, db.map (fun o => if o.uuid = existing.uuid then mkStoredObject pf existing.uuid else o))
    | none => (true, db ++ [mkStoredObject pf newUuid])

/- ===================== src/services/processing_service.py : per-file pipeline ===================== -/

/-- The external collaborators of `_process_single_file`, as oracles: each
field is the outcome the corresponding awaited call would produce for this
file.  Embedding vectors are `List Int` (components are never inspected). -/
structure FileEnv where
  local_file_url : Option String
  local_thumbnail : Option String
  extracted_frames : List String
  frame_url_of : String → String
  caption_of : String → Option String
  video_thumbnail_url : Option String
  image_embedding : String → Option (List Int)
  text_embedding : String → Option (List Int)

/-- The dedup gate of `_process_single_file` (src/services/processing_service.py
lines 332-341): skip iff an existing record was found, duplicate-skipping is
on, content-hash tracking is on, and the stored hash equals the candidate hash
(Python `==` on two possibly-`None` values: absent equals absent). -/
def dedupSkip (cfg : Config) (existing : Option StoredObject) (candidateHash : Option String) : Bool :=
  match existing with
  | some e =>
    cfg.skip_duplicate_files &&
      (cfg.track_content_hash && decide (e.content_hash = candidateHash))
  | none => false

/-- Thumbnail/processing URL selection of `_process_single_file` (lines
349-372): returns `(thumbnail_url, processing_url)`. -/
def selectUrls (cfg : Config) (env : FileEnv) (f : DropboxFile) (public_url : String) :
    Option String × String :=
  if f.file_type = "image" && cfg.use_thumbnails then
    let t := env.local_thumbnail
    (t, t.getD public_url)
  else if f.file_type = "video" && cfg.use_video_previews then
    (none, public_url)
  else
    ((if f.file_type = "image" then some public_url else none), public_url)

/-- Caption/tag generation of `_process_single_file` (lines 374-417): images
are captioned directly; videos go through frame extraction, frame analysis and
video-tag extraction, falling back to a literal caption when no frames were
extracted. -/
def captionAndTags (env : FileEnv) (f : DropboxFile) (processing_url : String) :
    Option String × List String :=
  if f.file_type = "image" then
    match env.caption_of processing_url with
    | some c => (some c, extractTagsFromCaption c)
    | none => (none, [])
  else if f.file_type = "video" then
    if env.extracted_frames ≠ [] then
      let caption := analyzeVideoFrames env.caption_of env.frame_url_of env.extracted_frames
      let frame_captions := env.extracted_frames.filterMap (fun p => env.caption_of (env.frame_url_of p))
      (some caption, extractVideoTags (some caption) frame_captions)
    else
      (some ("Video file: " ++ f.name), ["video"])
  else (none, [])

/-- Video-thumbnail fallback of `_process_single_file` (lines 419-426). -/
def finalThumbnail (cfg : Config) (env : FileEnv) (f : DropboxFile) (thumbnail_url : Option String) :
    Option String :=
  if f.file_type = "video" && (cfg.extract_video_thumbnail && thumbnail_url.isNone) then
    env.video_thumbnail_url
  else thumbnail_url

/-- Python truthiness of the caption (`elif caption:`): present and non-empty. -/
def pyTruthy : Option String → Bool
  | none => false
  | some s => s ≠ ""

/-- Embedding selection of `_process_single_file` (lines 428-435): images are
embedded visually; otherwise a truthy caption is embedded as text; otherwise
no embedding input exists. -/
def selectEmbedding (env : FileEnv) (f : DropboxFile) (processing_url : String)
    (caption : Option String) : Option (List Int) :=
  if f.file_type = "image" then env.image_embedding processing_url
  else if pyTruthy caption then env.text_embedding (caption.getD "")
  else none

/-- Python falsiness of the embedding value (`if not embedding:`): absent or
the empty list. -/
def embeddingFalsy (e : Option (List Int)) : Bool :=
  match e with
  | none => true
  | some v => v.isEmpty

/-- Outcome of one `_process_single_file` call.  The Python function returns
`Optional[ProcessedFile]`; the constructors record which return site produced
the `None` (the claims are about which path was taken and whether the store was
written). -/
inductive FileOutcome where
  | skippedUnchanged
  | noLocalUrl
  | noEmbedding
  | stored (pf : ProcessedFile)
  | storeFailed (pf : ProcessedFile)
deriving DecidableEq

/-- `ProcessingService._process_single_file` (src/services/processing_service.py
lines 324-477) over the oracle environment and an explicit vector-store state:
dedup gate, download, URL selection, caption/tags, embedding, record assembly,
store.  Returns the outcome and the (possibly updated) store. -/
def processSingleFile (cfg : Config) (env : FileEnv) (db : List StoredObject)
    (f : DropboxFile) (newUuid : String) (now : String) : FileOutcome × List StoredObject :=
  let existing := getFileByPath db f.path_display
  if dedupSkip cfg existing f.content_hash then (.skippedUnchanged, db)
  else
    match env.local_file_url with
    | none => (.noLocalUrl, db)
    | some public_url =>
      let urls := selectUrls cfg env f public_url
      let processing_url := urls.2
      let ct := captionAndTags env f processing_url
      let caption := ct.1
      let thumbnail_url := finalThumbnail cfg env f urls.1
      let embedding := selectEmbedding env f processing_url caption
      if embeddingFalsy embedding then (.noEmbedding, db)
      else
        let pf : ProcessedFile :=
          { id := f.id
            dropbox_path := f.path_display
            file_name := f.name
            file_type := f.file_type
            file_extension := f.extension
            file_size := f.size
            modified_date := f.modified
            processed_date := now
            embedding := embedding.getD []
            caption := caption
            tags := ct.2
            metadata_content_hash := f.content_hash
            metadata_path_lower := f.path_lower
            metadata_processing_url := processing_url
            metadata_optimized := f.file_type = "image"
            public_url := some public_url
            thumbnail_url := thumbnail_url }
        let res := storeFile pf db newUuid
        if res.1 then (.stored pf, res.2) else (.storeFailed pf, res.2)

/- ===================== src/services/processing_service.py : batch loops ===================== -/

/-- One result of the `asyncio.gather(..., return_exceptions=True)` in
`_process_batch`: either the task ended in an exception (its message is
appended to `errors`), or it returned a value (`ProcessedFile` or `None` —
only "returned at all" matters to the counters, so the payload is
`Option Unit`). -/
inductive PerFileResult where
  | raised (msg : String)
  | returned (r : Option Unit)
deriving DecidableEq

/-- The result loop of `ProcessingService._process_batch`
(src/services/processing_service.py lines 309-322): append an error message
per exception, increment `files_processed` once per non-exception result. -/
def processBatchStep (resultOf : DropboxFile → PerFileResult) (st : ProcessingStatus)
    (batch : List DropboxFile) : ProcessingStatus :=
  batch.foldl
    (fun s f =>
      match resultOf f with
      | .raised msg =>
        { s with errors := s.errors ++ ["Error processing " ++ f.name ++ ": " ++ msg] }
      | .returned _ => { s with files_processed := s.files_processed + 1 })
    st

/-- The batch loop of `ProcessingService.smart_process` (lines 75-85): per
iteration, check `stop_requested` (only — the pause gate is not consulted in
this loop), process one batch via `_process_batch`, then add the batch length
to `files_processed` again.  `stopRequested` is the externally settable stop
flag, constant over the runs the claims quantify over.  A `bsize = 0` guard
mirrors that Python `range(0, n, 0)` raises (`BATCH_SIZE` is a positive
integer). -/
def smartLoopGo (resultOf : DropboxFile → PerFileResult) (bsize : Nat) (stopRequested : Bool)
    (st : ProcessingStatus) (files : List DropboxFile) : ProcessingStatus :=
  if bsize = 0 ∨ files = [] then st
  else if stopRequested then { st with status := "stopped" }
  else
    let batch := files.take bsize
    let st1 := processBatchStep resultOf st batch
    let st2 := { st1 with files_processed := st1.files_processed + batch.length }
    smartLoopGo resultOf bsize stopRequested st2 (files.drop bsize)
termination_by files.length
decreasing_by
  simp only [List.length_drop]
  have h1 : bsize ≠ 0 := by tauto
  have h2 : files ≠ [] := by tauto
  have h3 := List.length_pos.mpr h2
  omega

/-- `ProcessingService.smart_process` (lines 40-100) after the sync step, as a
function of the changed-file list and the per-file results: counters reset,
early completion when nothing changed, `files_total` set, the batch loop, and
the final status. -/
def smartProcessRun (resultOf : DropboxFile → PerFileResult) (bsize : Nat)
    (stopRequested : Bool) (files : List DropboxFile) : ProcessingStatus :=
  let st0 : ProcessingStatus :=
    { status := "running", files_processed := 0, files_total := 0,
      current_file := none, errors := [] }
  if files = [] then { st0 with status := "completed" }
  else
    let st1 := { st0 with files_total := files.length }
    let st2 := smartLoopGo resultOf bsize stopRequested st1 files
    if stopRequested then st2 else { st2 with status := "completed" }

/-- The run-level flags read at the head of each batch loop: the asyncio pause
event (set = gate open), the stop flag, and the nominal status string. -/
structure RunFlags where
  pause_event_set : Bool
  stop_requested : Bool
  status : String
deriving DecidableEq

/-- What the head of a batch-loop iteration does next. -/
inductive BatchLoopStep where
  | waitsOnPauseGate
  | exitsStopped
  | startsBatch (batch rest : List DropboxFile)
  | loopFinished
deriving DecidableEq

/-- One iteration head of the batch loop shared verbatim by
`process_all_files` (lines 127-137), `process_new_files` (lines 179-189),
`process_images_only` (lines 231-241) and `process_videos_only`
(lines 283-293): the loop ends when no files remain; otherwise
`await self.pause_event.wait()` suspends while the pause gate is closed; then
the stop conditions are checked; then the next batch is started (and runs to
completion before the loop head is reached again — the gate is consulted only
between batches). -/
def gatedBatchLoopStep (fl : RunFlags) (remaining : List DropboxFile) (bsize : Nat) :
    BatchLoopStep :=
  if remaining = [] then .loopFinished
  else if fl.pause_event_set = false then .waitsOnPauseGate
  else if fl.stop_requested || fl.status == "stopped" then .exitsStopped
  else .startsBatch (remaining.take bsize) (remaining.drop bsize)

/-- One iteration head of the `smart_process` batch loop (lines 75-85): only
`stop_requested` is consulted; `pause_event` is never awaited in this loop. -/
def smartBatchLoopStep (fl : RunFlags) (remaining : List DropboxFile) (bsize : Nat) :
    BatchLoopStep :=
  if remaining = [] then .loopFinished
  else if fl.stop_requested then .exitsStopped
  else .startsBatch (remaining.take bsize) (remaining.drop bsize)

/- ===================== start-attempt handling (src/main.py + processing_service) ===================== -/

/-- The mutable service fields a start attempt reads (`current_status` plus the
pause flag and the run lock). -/
structure ServiceState where
  status : String
  is_paused : Bool
  files_processed : Nat
  files_total : Nat
  lock_locked : Bool
deriving DecidableEq

/-- `ProcessingService.get_processing_status` (lines 523-528): when the pause
flag is set while the nominal status is "running", the status is rewritten to
"paused" (a genuine mutation of `current_status`) and reported. -/
def getProcessingStatus (st : ServiceState) : String × ServiceState :=
  if st.is_paused && st.status == "running" then ("paused", { st with status := "paused" })
  else (st.status, st)

/-- Route-level reply of a start endpoint. -/
inductive StartRouteResponse where
  | conflict409
  | initiated
deriving DecidableEq

/-- The guard shared by every start endpoint of src/main.py
(`/api/process/smart` lines 758-767, `/api/process/all`, `/api/process/new`,
and the kind-filtered variants): query the status, reply HTTP 409 iff it
equals "running", otherwise schedule the background task.  The guard touches
no counter. -/
def startRouteGuard (st : ServiceState) : StartRouteResponse × ServiceState :=
  let q := getProcessingStatus st
  if q.1 == "running" then (.conflict409, q.2) else (.initiated, q.2)

/-- What `async with self.processing_lock` does when the background task
starts (processing_service lines 45, 104, 156, 207, 259): `asyncio.Lock`
acquisition waits in FIFO order while the lock is held by the active run; it
never fails fast. -/
inductive LockAcquisition where
  | acquiredRun
  | queuedBehindHolder
deriving DecidableEq

/-- Acquisition behaviour of the run lock as a function of its state. -/
def lockAcquire (locked : Bool) : LockAcquisition :=
  if locked then .queuedBehindHolder else .acquiredRun

/- ===================== src/services/local_cache_service.py ===================== -/

/-- One row of the `files` table (`init_database`): `id` is the PRIMARY KEY,
`path_lower` is UNIQUE.  `created_at` takes its column default on every
INSERT OR REPLACE, so it behaves like `last_synced` here. -/
structure CacheRow where
  id : String
  path_lower : String
  path_display : String
  name : String
  parent_path : Option String
  is_folder : Bool
  file_type : String
  file_extension : String
  size : Nat
  modified_date : String
  content_hash : Option String
  is_downloadable : Bool
  last_synced : String
  created_at : String
deriving DecidableEq

/-- The SQLite database: the `files` table as a list of rows (SQL row order is
immaterial; every reader either sorts or aggregates) and the two keys of the
`sync_metadata` table.  The file-size statistic of `get_cache_stats` (a
filesystem call) is not modelled. -/
structure CacheDB where
  rows : List CacheRow
  meta_last_sync : Option String
  meta_last_full_sync : Option String
deriving DecidableEq

/-- Split a display path on `/`. -/
def splitPath (p : String) : List String := (p.data.splitOn '/').map (fun cs => ⟨cs⟩)

/-- `str(Path(p).parent)` for a slash-separated display path (Dropbox display
paths start with `/`, the only shape the pipeline feeds in). -/
def pathParent (p : String) : String :=
  match (splitPath p).dropLast with
  | [] => p
  | [""] => "/"
  | ps => String.intercalate "/" ps

/-- The `parent_path` computation of `LocalCacheService.store_files`
(lines 84-87): `None` for the root, and a `/` parent collapsed to `None`. -/
def parentPathOf (path_display : String) : Option String :=
  if path_display = "/" then none
  else
    let pp := pathParent path_display
    if pp = "/" then none else some pp

/-- The row written for one file by `store_files` at time `now`. -/
def cacheRowOf (now : String) (f : DropboxFile) : CacheRow :=
  { id := f.id
    path_lower := f.path_lower
    path_display := f.path_display
    name := f.name
    parent_path := parentPathOf f.path_display
    is_folder := false
    file_type := f.file_type
    file_extension := f.extension
    size := f.size
    modified_date := f.modified
    content_hash := f.content_hash
    is_downloadable := f.is_downloadable
    last_synced := now
    created_at := now }

/-- SQLite `INSERT OR REPLACE`: delete every row violating a uniqueness
constraint against the new row (`id` primary key, `path_lower` unique), then
insert the new row. -/
def insertOrReplace (rows : List CacheRow) (r : CacheRow) : List CacheRow :=
  rows.filter (fun q => decide (q.id ≠ r.id ∧ q.path_lower ≠ r.path_lower)) ++ [r]

/-- `LocalCacheService.store_files` (lines 65-132): one INSERT OR REPLACE per
file in order, then the `last_sync` (and, for a full sync, `last_full_sync`)
metadata keys; returns the stored count and the new database. -/
def storeFiles (db : CacheDB) (files : List DropboxFile) (is_full_sync : Bool) (now : String) :
    Nat × CacheDB :=
  let rows := files.foldl (fun rs f => insertOrReplace rs (cacheRowOf now f)) db.rows
  (files.length,
   { rows := rows
     meta_last_sync := some now
     meta_last_full_sync := if is_full_sync then some now else db.meta_last_full_sync })

/-- Row-to-model conversion performed by `get_files` (lines 173-190). -/
def cacheRowToFile (r : CacheRow) : DropboxFile :=
  { id := r.id
    name := r.name
    path_lower := r.path_lower
    path_display := r.path_display
    size := r.size
    modified := r.modified_date
    content_hash := r.content_hash
    is_downloadable := r.is_downloadable
    file_type := r.file_type
    extension := r.file_extension }

/-- Lexicographic comparison on character lists (SQL `ORDER BY` on a TEXT
column). -/
def charListLe : List Char → List Char → Bool
  | [], _ => true
  | _ :: _, [] => false
  | a :: as, b :: bs => if a < b then true else if a = b then charListLe as bs else false

/-- `LocalCacheService.get_files` with no filters (the call sites the claims
use): non-folder rows, ordered by `path_display`, converted to `DropboxFile`.
The conversion keeps `path_display`, so converting then sorting equals the
SQL order-then-convert. -/
def getFiles (db : CacheDB) : List DropboxFile :=
  (((db.rows.filter (fun r => !r.is_folder)).map cacheRowToFile).mergeSort
    (fun a b => charListLe a.path_display.data b.path_display.data))

/-- `LocalCacheService.remove_file` (lines 275-293): delete rows whose
`path_lower` equals the lower-cased argument or whose `path_display` equals it
verbatim; report whether any row went away (the connection context manager
commits the delete regardless). -/
def removeFile (db : CacheDB) (path : String) : Bool × CacheDB :=
  let keep := db.rows.filter
    (fun r => decide (¬(r.path_lower = pyLower path ∨ r.path_display = path)))
  (decide (keep.length < db.rows.length), { db with rows := keep })

/-- `LocalCacheService.is_cache_empty` (lines 357-368): zero rows. -/
def isCacheEmpty (db : CacheDB) : Bool := db.rows.isEmpty

/-- The dictionary built by `get_cache_stats` (lines 295-340); `error` is the
extra key of the exception path. -/
structure CacheStats where
  total_files : Nat
  by_type : List (String × Nat)
  last_sync : Option String
  last_full_sync : Option String
  error : Option String
deriving DecidableEq

/-- The `GROUP BY file_type` counts over non-folder rows (group order taken as
first occurrence; no claim reads it). -/
def byTypeCounts (rows : List CacheRow) : List (String × Nat) :=
  let fs := rows.filter (fun r => !r.is_folder)
  ((fs.map (fun r => r.file_type)).eraseDups).map
    (fun t => (t, (fs.filter (fun r => decide (r.file_type = t))).length))

/-- `LocalCacheService.get_cache_stats`, success path. -/
def getCacheStats (db : CacheDB) : CacheStats :=
  { total_files := (db.rows.filter (fun r => !r.is_folder)).length
    by_type := byTypeCounts db.rows
    last_sync := db.meta_last_sync
    last_full_sync := db.meta_last_full_sync
    error := none }

/-- `store_files` with its `except Exception` handler (lines 130-132): when
the storage layer raises during this call, the handler returns `0` — the same
value a successful call on an empty record set returns — and nothing is
re-raised; otherwise the normal result.  A failed call leaves the database as
the rolled-back state. -/
def storeFilesWithFailure (storage_raises : Bool) (db : CacheDB) (files : List DropboxFile)
    (is_full_sync : Bool) (now : String) : Nat × CacheDB :=
  if storage_raises then (0, db) else storeFiles db files is_full_sync now

/-- `get_files` with its `except Exception` handler (lines 195-197): a storage
error is returned as the empty list. -/
def getFilesWithFailure (storage_raises : Bool) (db : CacheDB) : List DropboxFile :=
  if storage_raises then [] else getFiles db

/-- `remove_file` with its `except Exception` handler (lines 291-293): a
storage error is returned as `False` — the same value as "path not present". -/
def removeFileWithFailure (storage_raises : Bool) (db : CacheDB) (path : String) :
    Bool × CacheDB :=
  if storage_raises then (false, db) else removeFile db path

/-- `get_cache_stats` with its `except Exception` handler (lines 334-340): a
storage error is returned as a zeroed statistics dictionary carrying an
`error` string. -/
def getCacheStatsWithFailure (storage_raises : Bool) (msg : String) (db : CacheDB) : CacheStats :=
  if storage_raises then
    { total_files := 0, by_type := [], last_sync := none, last_full_sync := none,
      error := some msg }
  else getCacheStats db

/- ===================== src/services/dropbox_service.py ===================== -/

/-- `dropbox.files.FileMetadata` fields the sync engine reads. -/
structure RemoteFileMeta where
  id : String
  name : String
  path_lower : String
  path_display : String
  size : Nat
  client_modified : String
  content_hash : Option String
deriving DecidableEq

/-- One entry of a remote listing page: a file, a deletion, or anything else
(folders are skipped by the `isinstance` checks). -/
inductive RemoteEntry where
  | file (m : RemoteFileMeta)
  | deleted (path_display : String)
  | folder
deriving DecidableEq

/-- One page of the remote listing: its entries and the continuation cursor it
carries.  The page sequence walked by a `while result.has_more` loop is given
as a list whose last element is the `has_more = False` page. -/
structure RemotePage where
  entries : List RemoteEntry
  cursor : String
deriving DecidableEq

/-- `Config.SUPPORTED_IMAGE_TYPES` (src/config.py line 63). -/
def SUPPORTED_IMAGE_TYPES : List String := [".jpg", ".jpeg", ".png", ".gif", ".bmp", ".webp"]

/-- `Config.SUPPORTED_VIDEO_TYPES` (src/config.py line 64). -/
def SUPPORTED_VIDEO_TYPES : List String := [".mp4", ".avi", ".mov", ".mkv", ".wmv", ".flv"]

/-- `os.path.splitext(name)[1]`: the text from the final dot, empty when there
is no dot or when every character before the final dot group is a dot. -/
def fileExtensionOf (name : String) : String :=
  let parts := name.data.splitOn '.'
  match parts with
  | [] => ""
  | [_] => ""
  | _ =>
    if (parts.dropLast).all (fun cs => cs.isEmpty) then ""
    else ⟨'.' :: parts.getLastD []⟩

/-- The entry filter shared by `_do_full_resync`, `get_incremental_changes`
and `list_files`: keep file entries whose lower-cased extension is a supported
image or video type, and build the `DropboxFile` record the code builds
(`is_downloadable` takes its pydantic default `True`). -/
def collectSupported (entries : List RemoteEntry) : List DropboxFile :=
  entries.filterMap fun
    | .file m =>
      let ext := pyLower (fileExtensionOf m.name)
      if ext ∈ SUPPORTED_IMAGE_TYPES ∨ ext ∈ SUPPORTED_VIDEO_TYPES then
        some { id := m.id
               name := m.name
               path_lower := m.path_lower
               path_display := m.path_display
               size := m.size
               modified := m.client_modified
               content_hash := m.content_hash
               is_downloadable := true
               file_type := if ext ∈ SUPPORTED_IMAGE_TYPES then "image" else "video"
               extension := ext }
      else none
    | _ => none

/-- The sync engine's persistent state: the local cache database and the
cursor file (`dropbox_cursor.json`). -/
structure SyncState where
  cache : CacheDB
  cursor_file : Option String
deriving DecidableEq

/-- The cursor of the final page (`new_cursor = result.cursor` on the
`has_more = False` page). -/
def lastCursor (pages : List RemotePage) : String := (pages.map (fun p => p.cursor)).getLastD ""

/-- `DropboxService._do_full_resync` (lines 165-209): walk the full listing,
collect supported files, store them as a full sync when non-empty, persist the
final cursor.  Returns `(files, cursor)` and the new persistent state. -/
def doFullResync (fullPages : List RemotePage) (st : SyncState) (now : String) :
    (List DropboxFile × String) × SyncState :=
  let files := fullPages.flatMap (fun p => collectSupported p.entries)
  let cursor := lastCursor fullPages
  let cache1 := if files.isEmpty then st.cache else (storeFiles st.cache files true now).2
  ((files, cursor), { cache := cache1, cursor_file := some cursor })

/-- Outcome of the whole `files_list_folder_continue` paging attempt: the page
sequence, or a "reset" `ApiError` (stale cursor), or any other error.  A
failure at any continue call is one `otherError` outcome — the handlers treat
them all alike. -/
inductive ContinueOutcome where
  | ok (pages : List RemotePage)
  | resetError
  | otherError
deriving DecidableEq

/-- What `get_incremental_changes` gives its caller: the
`(changed_files, new_cursor)` tuple, or an exception propagating out.  No
branch of the embedded function produces `raisedToCaller`: every remote error
of the continue path is swallowed into the full-resync fallback. -/
inductive SyncResult where
  | ok (changed : List DropboxFile) (new_cursor : String)
  | raisedToCaller
deriving DecidableEq

/-- Per-entry processing of the incremental loop (lines 117-148): supported
file entries are collected as changed files; deletions are removed from the
cache immediately (each a committed SQLite delete); other entries are
skipped. -/
def applyIncrementalEntry (acc : List DropboxFile × CacheDB) (e : RemoteEntry) :
    List DropboxFile × CacheDB :=
  match e with
  | .file m => (acc.1 ++ collectSupported [.file m], acc.2)
  | .deleted p => (acc.1, (removeFile acc.2 p).2)
  | .folder => acc

/-- The incremental paging loop over all pages. -/
def applyIncrementalPages (cache : CacheDB) (pages : List RemotePage) :
    List DropboxFile × CacheDB :=
  pages.foldl (fun acc p => p.entries.foldl applyIncrementalEntry acc) ([], cache)

/-- `DropboxService.get_incremental_changes` (lines 84-163) over an abstract
remote: full resync when the cache is empty or no usable cursor is persisted;
otherwise continue from the cursor.  A "reset" `ApiError` falls back to a full
resync (lines 105-108); any other error is re-raised, caught by the outer
`except Exception` handler, and ALSO answered with a full resync
(lines 160-163) — nothing is surfaced to the caller.  On success the changed
files are stored, the new cursor persisted, and the pair returned. -/
def getIncrementalChanges (fullPages : List RemotePage) (cont : String → ContinueOutcome)
    (st : SyncState) (now : String) : SyncResult × SyncState :=
  if isCacheEmpty st.cache then
    let r := doFullResync fullPages st now
    (.ok r.1.1 r.1.2, r.2)
  else
    match st.cursor_file with
    | none =>
      let r := doFullResync fullPages st now
      (.ok r.1.1 r.1.2, r.2)
    | some cursor =>
      if cursor = "" then
        let r := doFullResync fullPages st now
        (.ok r.1.1 r.1.2, r.2)
      else
        match cont cursor with
        | .resetError =>
          let r := doFullResync fullPages st now
          (.ok r.1.1 r.1.2, r.2)
        | .otherError =>
          let r := doFullResync fullPages st now
          (.ok r.1.1 r.1.2, r.2)
        | .ok pages =>
          let applied := applyIncrementalPages st.cache pages
          let newCursor := lastCursor pages
          let cache2 :=
            if applied.1.isEmpty then applied.2
            else (storeFiles applied.2 applied.1 false now).2
          (.ok applied.1 newCursor, { cache := cache2, cursor_file := some newCursor })

/- ===================== shared sample values ===================== -/

/-- A configuration with both dedup flags enabled (the defaults of
src/config.py lines 53-54). -/
def cfgBothFlags : Config :=
  { skip_duplicate_files := true, track_content_hash := true,
    use_thumbnails := true, use_video_previews := true, extract_video_thumbnail := true }

/-- A sample image file whose remote provided no content hash. -/
def fileNoHash : DropboxFile :=
  { id := "id:1", name := "a.jpg", path_lower := "/a.jpg", path_display := "/a.jpg",
    size := 10, modified := "2024-01-01T00:00:00", content_hash := none,
    is_downloadable := true, file_type := "image", extension := ".jpg" }

/-- A stored object for the same path whose stored content hash is likewise
absent, with a non-empty vector. -/
def storedNoHash : StoredObject :=
  { uuid := "u1", dropbox_id := "id:0", dropbox_path := "/a.jpg", file_name := "a.jpg",
    file_type := "image", caption := some "a dog", tags := ["dog"], content_hash := none,
    processed_date := "2024-01-01T00:00:00", vector := [1, 2] }

/-- An oracle environment whose embedding backends return no vector and whose
other collaborators return nothing of interest. -/
def envNoVector : FileEnv :=
  { local_file_url := some "http://localhost:8000/files/a.jpg"
    local_thumbnail := none
    extracted_frames := []
    frame_url_of := fun p => p
    caption_of := fun _ => none
    video_thumbnail_url := none
    image_embedding := fun _ => none
    text_embedding := fun _ => none }

/-- A sample image file carrying a content hash. -/
def fileHashed : DropboxFile :=
  { id := "id:2", name := "b.jpg", path_lower := "/b.jpg", path_display := "/b.jpg",
    size := 11, modified := "2024-01-02T00:00:00", content_hash := some "h1",
    is_downloadable := true, file_type := "image", extension := ".jpg" }

/-- A stored object for the same path with the same stored content hash. -/
def storedHashed : StoredObject :=
  { uuid := "u2", dropbox_id := "id:2", dropbox_path := "/b.jpg", file_name := "b.jpg",
    file_type := "image", caption := some "a cat", tags := ["cat"], content_hash := some "h1",
    processed_date := "2024-01-02T00:00:00", vector := [3] }

/-- A paused run's service state: pause set both the flag and the status, and
the active run still holds the run lock. -/
def pausedService : ServiceState :=
  { status := "paused", is_paused := true, files_processed := 3, files_total := 10,
    lock_locked := true }

/-- A running, unpaused run's service state. -/
def runningService : ServiceState :=
  { status := "running", is_paused := false, files_processed := 1, files_total := 2,
    lock_locked := true }

/-- An empty inventory database. -/
def emptyCacheDb : CacheDB := { rows := [], meta_last_sync := none, meta_last_full_sync := none }

/-- A non-empty sync state with a persisted cursor. -/
def syncStateSample : SyncState :=
  { cache := { rows := [cacheRowOf "t0" fileHashed], meta_last_sync := some "t0",
               meta_last_full_sync := some "t0" },
    cursor_file := some "cursor-1" }

/-- A one-page full listing holding one supported image. -/
def fullPagesSample : List RemotePage :=
  [{ entries := [RemoteEntry.file
       { id := "id:9", name := "c.png", path_lower := "/c.png", path_display := "/c.png",
         size := 5, client_modified := "2024-02-01T00:00:00", content_hash := some "h9" }],
     cursor := "cursor-full" }]

/-- Conflict-freedom of a table row against every record of a `store_files`
batch: the row violates no uniqueness constraint against any written row. -/
def conflictFree (files : List DropboxFile) (q : CacheRow) : Bool :=
  files.all (fun f => decide (q.id ≠ f.id ∧ q.path_lower ≠ f.path_lower))

/-- The row-table fold of `store_files`: one INSERT OR REPLACE per file. -/
def upsertAll (rows : List CacheRow) (now : String) (files : List DropboxFile) :
    List CacheRow :=
  files.foldl (fun rs f => insertOrReplace rs (cacheRowOf now f)) rows

/-- Replace the per-call timestamp columns of a row. -/
def restamp (t : String) (r : CacheRow) : CacheRow :=
  { r with last_synced := t, created_at := t }

/- ===================== helper lemmas ===================== -/

/-- The dedup gate fires exactly when an existing record was found, both flags
are on, and the stored hash equals the candidate hash. -/
theorem dedupSkip_eq_true_iff (cfg : Config) (ex : Option StoredObject) (h : Option String) :
    dedupSkip cfg ex h = true ↔
      ∃ e, ex = some e ∧ cfg.skip_duplicate_files = true ∧ cfg.track_content_hash = true ∧
        e.content_hash = h := by
  cases ex with
  | none => simp [dedupSkip]
  | some e => simp [dedupSkip, Bool.and_eq_true, decide_eq_true_eq, and_assoc]

/-- `_process_single_file` returns at the dedup gate exactly when the gate
fires; every other path produces a different outcome. -/
theorem processSingleFile_skipped_iff (cfg : Config) (env : FileEnv) (db : List StoredObject)
    (f : DropboxFile) (uuid now : String) :
    (processSingleFile cfg env db f uuid now).1 = .skippedUnchanged ↔
      dedupSkip cfg (getFileByPath db f.path_display) f.content_hash = true := by
  by_cases hd : dedupSkip cfg (getFileByPath db f.path_display) f.content_hash
  · simp [processSingleFile, hd]
  · simp only [processSingleFile, hd, Bool.false_eq_true, if_false]
    constructor
    · intro hcontra
      cases henv : env.local_file_url with
      | none => rw [henv] at hcontra; exact absurd hcontra (by simp)
      | some pu =>
        rw [henv] at hcontra
        simp only at hcontra
        split at hcontra
        · exact absurd hcontra (by simp)
        · split at hcontra <;> simp_all
    · intro hcontra
      exact absurd hcontra (by simp [hd])

/-- C2.  For every candidate file with an existing enriched record for the
same path whose stored content fingerprint equals the candidate's, the dedup
gate of `_process_single_file` returns "skip" exactly when both the
duplicate-skipping flag and the content-hash-tracking flag are enabled; and
whenever either flag is disabled, or the fingerprints differ, or no existing
record exists, the file is not skipped (processing proceeds past the gate). -/
theorem claim_C2_dedup_flag_conjunction :
    (∀ (cfg : Config) (env : FileEnv) (db : List StoredObject) (f : DropboxFile)
       (uuid now : String) (e : StoredObject),
       getFileByPath db f.path_display = some e →
       e.content_hash = f.content_hash →
       ((processSingleFile cfg env db f uuid now).1 = .skippedUnchanged ↔
         cfg.skip_duplicate_files = true ∧ cfg.track_content_hash = true))
    ∧ (∀ (cfg : Config) (env : FileEnv) (db : List StoredObject) (f : DropboxFile)
       (uuid now : String),
       (cfg.skip_duplicate_files = false ∨ cfg.track_content_hash = false ∨
        getFileByPath db f.path_display = none ∨
        (∃ e, getFileByPath db f.path_display = some e ∧ e.content_hash ≠ f.content_hash)) →
       (processSingleFile cfg env db f uuid now).1 ≠ .skippedUnchanged) := by
  constructor
  · intro cfg env db f uuid now e he hh
    rw [processSingleFile_skipped_iff, dedupSkip_eq_true_iff]
    constructor
    · rintro ⟨e', _, hs, ht, _⟩
      exact ⟨hs, ht⟩
    · rintro ⟨hs, ht⟩
      exact ⟨e, he, hs, ht, hh⟩
  · intro cfg env db f uuid now hcase hskip
    rw [processSingleFile_skipped_iff, dedupSkip_eq_true_iff] at hskip
    obtain ⟨e, he, hs, ht, hh⟩ := hskip
    rcases hcase with h | h | h | ⟨e', he', hne⟩
    · rw [h] at hs; exact absurd hs (by simp)
    · rw [h] at ht; exact absurd ht (by simp)
    · rw [h] at he; exact absurd he (by simp)
    · rw [he] at he'
      have : e = e' := by injection he'
      exact hne (this ▸ hh)

/-- Witness for C2 at a concrete input: an unchanged hashed image with both
flags on is skipped. -/
theorem claim_C2_dedup_flag_conjunction_witness :
    (processSingleFile cfgBothFlags envNoVector [storedHashed] fileHashed "u" "t").1 =
      FileOutcome.skippedUnchanged :=
  (claim_C2_dedup_flag_conjunction.1 cfgBothFlags envNoVector [storedHashed] fileHashed
    "u" "t" storedHashed (by decide) (by decide)).mpr ⟨rfl, rfl⟩

/-- Counterexample to C3 as stated: a file whose content fingerprint is absent
IS classified unchanged (and skipped) when the existing record's stored hash
is also absent and both flags are on — Python `None == None` is true at the
hash comparison, so the file is not "always processed". -/
theorem claim_C3_counterexample :
    fileNoHash.content_hash = none ∧
    storedNoHash.content_hash = none ∧
    cfgBothFlags.skip_duplicate_files = true ∧
    cfgBothFlags.track_content_hash = true ∧
    getFileByPath [storedNoHash] fileNoHash.path_display = some storedNoHash ∧
    (processSingleFile cfgBothFlags envNoVector [storedNoHash] fileNoHash "u" "t").1 =
      FileOutcome.skippedUnchanged := by
  refine ⟨rfl, rfl, rfl, rfl, by decide, by decide⟩

/-- C3 amended.  A file with an absent content fingerprint is skipped exactly
when an enriched record exists for its path whose stored fingerprint is also
absent and both dedup flags are enabled (absent compares equal to absent);
in every other situation it proceeds to processing. -/
theorem claim_C3_absent_hash_amended :
    ∀ (cfg : Config) (env : FileEnv) (db : List StoredObject) (f : DropboxFile)
      (uuid now : String),
      f.content_hash = none →
      ((processSingleFile cfg env db f uuid now).1 = .skippedUnchanged ↔
        (∃ e, getFileByPath db f.path_display = some e ∧ e.content_hash = none) ∧
        cfg.skip_duplicate_files = true ∧ cfg.track_content_hash = true) := by
  intro cfg env db f uuid now hnone
  rw [processSingleFile_skipped_iff, dedupSkip_eq_true_iff]
  constructor
  · rintro ⟨e, he, hs, ht, hh⟩
    exact ⟨⟨e, he, by rw [hh, hnone]⟩, hs, ht⟩
  · rintro ⟨⟨e, he, hh⟩, hs, ht⟩
    exact ⟨e, he, hs, ht, by rw [hh, hnone]⟩

/-- Witness for the amended C3 at a concrete input: the absent/absent pair
with both flags on is skipped. -/
theorem claim_C3_absent_hash_amended_witness :
    (processSingleFile cfgBothFlags envNoVector [storedNoHash] fileNoHash "u" "t").1 =
      FileOutcome.skippedUnchanged :=
  (claim_C3_absent_hash_amended cfgBothFlags envNoVector [storedNoHash] fileNoHash
    "u" "t" rfl).mpr ⟨⟨storedNoHash, by decide, rfl⟩, rfl, rfl⟩

/-- C1.  When the embedding backend returns no vector (absent or an empty
list), the per-file pipeline changes nothing in the vector store and never
reaches the record-building / store step; independently, `store_file` rejects
any record with an empty embedding without writing; and the store operation
preserves the invariant that every persisted object has a non-empty vector. -/
theorem claim_C1_embedding_gating :
    (∀ (cfg : Config) (env : FileEnv) (db : List StoredObject) (f : DropboxFile)
       (uuid now : String),
       (∀ url, embeddingFalsy (env.image_embedding url) = true) →
       (∀ s, embeddingFalsy (env.text_embedding s) = true) →
       (processSingleFile cfg env db f uuid now).2 = db ∧
       (∀ pf, (processSingleFile cfg env db f uuid now).1 ≠ .stored pf) ∧
       (∀ pf, (processSingleFile cfg env db f uuid now).1 ≠ .storeFailed pf))
    ∧ (∀ (pf : ProcessedFile) (db : List StoredObject) (uuid : String),
       pf.embedding = [] → storeFile pf db uuid = (false, db))
    ∧ (∀ (pf : ProcessedFile) (db : List StoredObject) (uuid : String),
       (∀ o ∈ db, o.vector ≠ []) → ∀ o ∈ (storeFile pf db uuid).2, o.vector ≠ []) := by
  refine ⟨?_, ?_, ?_⟩
  · intro cfg env db f uuid now h1 h2
    have hemb : ∀ pu, embeddingFalsy (selectEmbedding env f (selectUrls cfg env f pu).2
        (captionAndTags env f (selectUrls cfg env f pu).2).1) = true := by
      intro pu
      unfold selectEmbedding
      split
      · exact h1 _
      · split
        · exact h2 _
        · rfl
    by_cases hd : dedupSkip cfg (getFileByPath db f.path_display) f.content_hash
    · refine ⟨?_, ?_, ?_⟩ <;> simp [processSingleFile, hd]
    · cases henv : env.local_file_url with
      | none => refine ⟨?_, ?_, ?_⟩ <;> simp [processSingleFile, hd, henv]
      | some pu => refine ⟨?_, ?_, ?_⟩ <;> simp [processSingleFile, hd, henv, hemb pu]
  · intro pf db uuid h
    simp [storeFile, h]
  · intro pf db uuid hinv o ho
    unfold storeFile at ho
    split at ho
    · exact hinv o ho
    · split at ho
      · exact hinv o ho
      · rename_i hne _
        split at ho
        · simp only [List.mem_map] at ho
          obtain ⟨q, hq, hqo⟩ := ho
          rw [← hqo]
          split
          · simpa [mkStoredObject] using hne
          · exact hinv q hq
        · simp only [List.mem_append, List.mem_singleton] at ho
          rcases ho with h | h
          · exact hinv o h
          · rw [h]
            simpa [mkStoredObject] using hne

/-- Witness for C1 at a concrete input: with both embedding backends
returning nothing, the pipeline leaves an empty store untouched. -/
theorem claim_C1_embedding_gating_witness :
    (processSingleFile cfgBothFlags envNoVector [] fileHashed "u" "t").2 = [] :=
  (claim_C1_embedding_gating.1 cfgBothFlags envNoVector [] fileHashed "u" "t"
    (fun _ => rfl) (fun _ => rfl)).1

/-- C4.  Frame-caption stitching: the concrete dog example collapses its
duplicate and yields the exact two-caption sentence; and in general (after
duplicate collapsing) one distinct caption yields a "showing X" sentence, two
yield "showing X, then Y", three yield the showing/followed-by/ending-with
narrative, and four or more yield the beginning/middle-list/ending
narrative. -/
theorem claim_C4_video_caption_stitching :
    combineFrameCaptions ["a dog running", "a dog running", "a dog jumping"] =
      "Video showing a dog running, then a dog jumping"
    ∧ uniqueCaptions ["a dog running", "a dog running", "a dog jumping"] =
      ["a dog running", "a dog jumping"]
    ∧ (∀ x, combineFrameCaptions [x] = "Video showing " ++ pyLower x)
    ∧ (∀ cs x, 2 ≤ cs.length → uniqueCaptions cs = [x] →
        combineFrameCaptions cs = "Video showing " ++ pyLower x)
    ∧ (∀ cs x y, 2 ≤ cs.length → uniqueCaptions cs = [x, y] →
        combineFrameCaptions cs = "Video showing " ++ pyLower x ++ ", then " ++ pyLower y)
    ∧ (∀ cs x y z, 2 ≤ cs.length → uniqueCaptions cs = [x, y, z] →
        combineFrameCaptions cs =
          "Video showing " ++ pyLower x ++ ", followed by " ++ pyLower y ++
            ", and ending with " ++ pyLower z)
    ∧ (∀ cs x rest, 2 ≤ cs.length → 3 ≤ rest.length → uniqueCaptions cs = x :: rest →
        combineFrameCaptions cs =
          "Video beginning with " ++ pyLower x ++ ", showing " ++
            String.intercalate ", " (rest.dropLast.map pyLower) ++
            ", and ending with " ++ pyLower (rest.getLastD "")) := by
  refine ⟨by decide, by decide, ?_, ?_, ?_, ?_, ?_⟩
  · intro x
    rfl
  · intro cs x h2 hu
    match cs, h2 with
    | a :: b :: t, _ => simp only [combineFrameCaptions, hu]
  · intro cs x y h2 hu
    match cs, h2 with
    | a :: b :: t, _ => simp only [combineFrameCaptions, hu]
  · intro cs x y z h2 hu
    match cs, h2 with
    | a :: b :: t, _ => simp only [combineFrameCaptions, hu]
  · intro cs x rest h2 h3 hu
    match rest, h3 with
    | r1 :: r2 :: r3 :: rs, _ =>
      match cs, h2 with
      | a :: b :: t, _ =>
        simp only [combineFrameCaptions, hu]
        simp [List.dropLast]

/-- Witness for C4 at a concrete four-caption input: the
beginning/middle-list/ending narrative. -/
theorem claim_C4_video_caption_stitching_witness :
    combineFrameCaptions ["A", "B", "C", "D"] =
      "Video beginning with a, showing b, c, and ending with d" := by
  have h := claim_C4_video_caption_stitching.2.2.2.2.2.2 ["A", "B", "C", "D"] "A"
    ["B", "C", "D"] (by decide) (by decide) (by decide)
  rw [h]
  decide

/-- Counterexample to C6 as stated: a start attempt while a run is Paused is
NOT rejected with a conflict — the route guard only rejects status "running",
so the attempt is initiated, and the background task then queues on the held
run lock instead of failing fast. -/
theorem claim_C6_counterexample :
    (startRouteGuard pausedService).1 = StartRouteResponse.initiated ∧
    (startRouteGuard pausedService).1 ≠ StartRouteResponse.conflict409 ∧
    lockAcquire pausedService.lock_locked = LockAcquisition.queuedBehindHolder := by
  refine ⟨rfl, by decide, rfl⟩

/-- C6 amended.  A second start attempt while a run is Running is rejected
immediately with an HTTP 409 conflict by the route-level status check (not by
the lock), and no start attempt ever changes the active run's counters; but
while a run is Paused the attempt is accepted and its background task queues
behind the held run lock — `asyncio.Lock` acquisition waits, it never fails
fast. -/
theorem claim_C6_start_conflict_amended :
    (∀ st : ServiceState, st.status = "running" → st.is_paused = false →
       (startRouteGuard st).1 = StartRouteResponse.conflict409)
    ∧ (∀ st : ServiceState, st.status = "paused" → st.lock_locked = true →
       (startRouteGuard st).1 = StartRouteResponse.initiated ∧
       lockAcquire st.lock_locked = LockAcquisition.queuedBehindHolder)
    ∧ (∀ st : ServiceState,
       (startRouteGuard st).2.files_processed = st.files_processed ∧
       (startRouteGuard st).2.files_total = st.files_total)
    ∧ (∀ b, lockAcquire b = LockAcquisition.queuedBehindHolder ↔ b = true) := by
  refine ⟨?_, ?_, ?_, ?_⟩
  · intro st h1 h2
    simp [startRouteGuard, getProcessingStatus, h1, h2]
  · intro st h1 h2
    refine ⟨?_, by rw [h2]; rfl⟩
    simp [startRouteGuard, getProcessingStatus, h1]
  · intro st
    have hq : (startRouteGuard st).2 = (getProcessingStatus st).2 := by
      simp only [startRouteGuard]
      split <;> rfl
    rw [hq]
    unfold getProcessingStatus
    split <;> exact ⟨rfl, rfl⟩
  · intro b
    cases b <;> simp [lockAcquire]

/-- Witness for the amended C6 at concrete states: a running, non-paused state
is rejected; the paused sample state is admitted and queues. -/
theorem claim_C6_start_conflict_amended_witness :
    (startRouteGuard runningService).1 = StartRouteResponse.conflict409 ∧
    (startRouteGuard pausedService).1 = StartRouteResponse.initiated :=
  ⟨claim_C6_start_conflict_amended.1 runningService rfl rfl,
   (claim_C6_start_conflict_amended.2.1 pausedService rfl rfl).1⟩

/-- Counterexample to C7 as stated: with the pause gate closed mid-run, the
`smart_process` batch loop still starts the next batch — its loop head never
consults the pause gate, so a file of a subsequent batch IS started while the
run is paused. -/
theorem claim_C7_counterexample :
    smartBatchLoopStep
      { pause_event_set := false, stop_requested := false, status := "paused" }
      [fileHashed] 25 = BatchLoopStep.startsBatch [fileHashed] [] := rfl

/-- C7 amended.  Pause takes effect only at batch boundaries, and only in the
gated entry points: `process_all_files`, `process_new_files`,
`process_images_only` and `process_videos_only` check the pause gate before
starting each new batch and start none while it is closed (the in-flight batch
having already run to completion by the time the loop head is reached again);
`smart_process`'s loop never consults the gate and, unless stopped, starts the
next batch even while the run is paused. -/
theorem claim_C7_pause_gate_amended :
    (∀ (fl : RunFlags) (rem : List DropboxFile) (bsize : Nat) b r,
       gatedBatchLoopStep fl rem bsize = .startsBatch b r → fl.pause_event_set = true)
    ∧ (∀ (fl : RunFlags) (rem : List DropboxFile) (bsize : Nat),
       fl.pause_event_set = false → rem ≠ [] →
       gatedBatchLoopStep fl rem bsize = .waitsOnPauseGate)
    ∧ (∀ (fl : RunFlags) (rem : List DropboxFile) (bsize : Nat),
       fl.pause_event_set = false → fl.stop_requested = false → rem ≠ [] →
       smartBatchLoopStep fl rem bsize = .startsBatch (rem.take bsize) (rem.drop bsize)) := by
  refine ⟨?_, ?_, ?_⟩
  · intro fl rem bsize b r h
    unfold gatedBatchLoopStep at h
    split at h
    · exact absurd h (by simp)
    · split at h
      · exact absurd h (by simp)
      · rename_i hp
        simpa using hp
  · intro fl rem bsize h1 h2
    simp [gatedBatchLoopStep, h1, h2]
  · intro fl rem bsize h1 h2 h3
    simp [smartBatchLoopStep, h2, h3]

/-- Witness for the amended C7 at concrete inputs: a gated loop waits while
paused; the smart loop starts its batch. -/
theorem claim_C7_pause_gate_amended_witness :
    gatedBatchLoopStep
      { pause_event_set := false, stop_requested := false, status := "paused" }
      [fileNoHash] 25 = BatchLoopStep.waitsOnPauseGate ∧
    smartBatchLoopStep
      { pause_event_set := false, stop_requested := false, status := "paused" }
      [fileNoHash] 25 = BatchLoopStep.startsBatch [fileNoHash] [] := by
  constructor
  · exact claim_C7_pause_gate_amended.2.1 _ [fileNoHash] 25 rfl (by decide)
  · exact claim_C7_pause_gate_amended.2.2 _ [fileNoHash] 25 rfl rfl (by decide)

/-- Counterexample to C9 as stated: a storage-layer error in `store_files`,
`get_files` or `remove_file` does NOT propagate as a distinct error type — the
operation returns 0 / the empty list / False, each indistinguishable from a
legitimate result of a successful call. -/
theorem claim_C9_counterexample :
    storeFilesWithFailure true emptyCacheDb [fileHashed] false "t" = (0, emptyCacheDb) ∧
    (storeFilesWithFailure false emptyCacheDb [] false "t").1 = 0 ∧
    getFilesWithFailure true emptyCacheDb = [] ∧
    getFilesWithFailure false emptyCacheDb = [] ∧
    removeFileWithFailure true emptyCacheDb "/b.jpg" = (false, emptyCacheDb) ∧
    (removeFileWithFailure false emptyCacheDb "/b.jpg").1 = false := by
  refine ⟨rfl, rfl, rfl, ?_, rfl, rfl⟩
  simp [getFilesWithFailure, getFiles, emptyCacheDb]

/-- C9 amended.  Every storage-layer error in `store_files`, `get_files`,
`remove_file` and `get_cache_stats` is caught inside the operation and
converted into a normal-looking return value — a zero count, an empty list,
`False`, or a zeroed statistics dictionary carrying an error string — rather
than propagating as a distinct store-error type (no such type exists in the
module). -/
theorem claim_C9_store_error_swallowed_amended :
    (∀ (db : CacheDB) (files : List DropboxFile) (b : Bool) (now : String),
       storeFilesWithFailure true db files b now = (0, db))
    ∧ (∀ db : CacheDB, getFilesWithFailure true db = [])
    ∧ (∀ (db : CacheDB) (p : String), removeFileWithFailure true db p = (false, db))
    ∧ (∀ (msg : String) (db : CacheDB), getCacheStatsWithFailure true msg db =
        { total_files := 0, by_type := [], last_sync := none, last_full_sync := none,
          error := some msg }) :=
  ⟨fun _ _ _ _ => rfl, fun _ => rfl, fun _ _ => rfl, fun _ _ => rfl⟩

/-- Counterexample to C5 as stated: when the remote raises an unclassified
error on the continue call, the engine does NOT surface an error to the
caller — it returns the result of an immediate full rescan (the catch-all
fallback of lines 160-163). -/
theorem claim_C5_counterexample :
    (getIncrementalChanges fullPagesSample (fun _ => ContinueOutcome.otherError)
      syncStateSample "t1").1 ≠ SyncResult.raisedToCaller ∧
    getIncrementalChanges fullPagesSample (fun _ => ContinueOutcome.otherError)
      syncStateSample "t1" =
      (SyncResult.ok (doFullResync fullPagesSample syncStateSample "t1").1.1
         (doFullResync fullPagesSample syncStateSample "t1").1.2,
       (doFullResync fullPagesSample syncStateSample "t1").2) := by
  refine ⟨by decide, rfl⟩

/-- C5 amended.  On any unclassified error from the remote during incremental
paging, no error reaches the caller: the engine falls back to an immediate
full resync and returns the full-resync result (the changed-file list and
cursor of the full pass, with the full listing upserted into the cache).  The
cursor is replaced by the full listing's cursor rather than being retried. -/
theorem claim_C5_unclassified_error_amended :
    ∀ (fullPages : List RemotePage) (cont : String → ContinueOutcome) (st : SyncState)
      (now c : String),
      isCacheEmpty st.cache = false → st.cursor_file = some c → c ≠ "" →
      cont c = ContinueOutcome.otherError →
      getIncrementalChanges fullPages cont st now =
        (SyncResult.ok (doFullResync fullPages st now).1.1
           (doFullResync fullPages st now).1.2,
         (doFullResync fullPages st now).2) := by
  intro fp cont st now c h1 h2 h3 h4
  simp [getIncrementalChanges, h1, h2, h3, h4]

/-- Witness for the amended C5 at the concrete sample inputs. -/
theorem claim_C5_unclassified_error_amended_witness :
    getIncrementalChanges fullPagesSample (fun _ => ContinueOutcome.otherError)
      syncStateSample "t1" =
      (SyncResult.ok (doFullResync fullPagesSample syncStateSample "t1").1.1
         (doFullResync fullPagesSample syncStateSample "t1").1.2,
       (doFullResync fullPagesSample syncStateSample "t1").2) :=
  claim_C5_unclassified_error_amended fullPagesSample (fun _ => ContinueOutcome.otherError)
    syncStateSample "t1" "cursor-1" (by decide) rfl (by decide) rfl

/-- Unfolding of the `_process_batch` result loop over its first result. -/
theorem processBatchStep_cons (resultOf : DropboxFile → PerFileResult)
    (st : ProcessingStatus) (f : DropboxFile) (t : List DropboxFile) :
    processBatchStep resultOf st (f :: t) =
      processBatchStep resultOf
        (match resultOf f with
         | .raised msg =>
           { st with errors := st.errors ++ ["Error processing " ++ f.name ++ ": " ++ msg] }
         | .returned _ => { st with files_processed := st.files_processed + 1 }) t := rfl

/-- `_process_batch` adds one to `files_processed` per returned (successful)
result and leaves `files_total` alone. -/
theorem processBatchStep_count (resultOf : DropboxFile → PerFileResult) :
    ∀ (batch : List DropboxFile) (st : ProcessingStatus),
      (∀ f ∈ batch, resultOf f = .returned (some ())) →
      (processBatchStep resultOf st batch).files_processed =
        st.files_processed + batch.length
      ∧ (processBatchStep resultOf st batch).files_total = st.files_total := by
  intro batch
  induction batch with
  | nil => intro st _; exact ⟨rfl, rfl⟩
  | cons f t ih =>
    intro st h
    have hf := h f (by simp)
    rw [processBatchStep_cons]
    simp only [hf]
    have hrec := ih { st with files_processed := st.files_processed + 1 }
      (fun g hg => h g (by simp [hg]))
    refine ⟨?_, hrec.2⟩
    rw [hrec.1]
    simp [Nat.add_comm, Nat.add_assoc, Nat.add_left_comm]

/-- Counter bookkeeping of the `smart_process` batch loop when no stop is
requested and every per-file task returns successfully: each batch bumps
`files_processed` by twice its length (once per file inside `_process_batch`,
once by the batch length in the outer loop); `files_total` is untouched. -/
theorem smartLoopGo_spec (resultOf : DropboxFile → PerFileResult) (bsize : Nat)
    (hb : bsize ≠ 0) :
    ∀ (n : Nat) (files : List DropboxFile) (st : ProcessingStatus),
      files.length ≤ n →
      (∀ f ∈ files, resultOf f = .returned (some ())) →
      (smartLoopGo resultOf bsize false st files).files_processed =
        st.files_processed + 2 * files.length
      ∧ (smartLoopGo resultOf bsize false st files).files_total = st.files_total := by
  intro n
  induction n with
  | zero =>
    intro files st hlen _
    have hnil : files = [] := List.length_eq_zero.mp (Nat.le_zero.mp hlen)
    subst hnil
    rw [smartLoopGo]
    simp
  | succ n ih =>
    intro files st hlen h
    by_cases hf : files = []
    · subst hf
      rw [smartLoopGo]
      simp
    · rw [smartLoopGo]
      have hcond : ¬(bsize = 0 ∨ files = []) := by tauto
      rw [if_neg hcond, if_neg (by simp : ¬(false = true))]
      have hbatch : ∀ g ∈ files.take bsize, resultOf g = .returned (some ()) :=
        fun g hg => h g (List.take_subset _ _ hg)
      have hdrop : ∀ g ∈ files.drop bsize, resultOf g = .returned (some ()) :=
        fun g hg => h g (List.drop_subset _ _ hg)
      have hlen2 : (files.drop bsize).length ≤ n := by
        rw [List.length_drop]
        have := List.length_pos.mpr hf
        omega
      have hbs := processBatchStep_count resultOf (files.take bsize) st hbatch
      have hsplit : (files.take bsize).length + (files.drop bsize).length = files.length := by
        rw [← List.length_append, List.take_append_drop]
      have hrec := ih (files.drop bsize)
        { processBatchStep resultOf st (files.take bsize) with
          files_processed :=
            (processBatchStep resultOf st (files.take bsize)).files_processed +
              (files.take bsize).length } hlen2 hdrop
      constructor
      · rw [hrec.1]
        simp only [hbs.1]
        omega
      · rw [hrec.2]
        simp only [hbs.2]

/-- C10.  In `smart_process`, successful work is counted twice: once per
successfully processed file inside `_process_batch` and once more per batch by
the full batch length in the outer loop.  Hence, in any run where every file
of every batch is processed successfully (and no stop is requested), the final
`files_processed` equals twice `files_total`, and strictly exceeds
`files_total` whenever any file was processed at all. -/
theorem claim_C10_double_counting :
    ∀ (resultOf : DropboxFile → PerFileResult) (bsize : Nat) (files : List DropboxFile),
      bsize ≠ 0 →
      (∀ f ∈ files, resultOf f = .returned (some ())) →
      (smartProcessRun resultOf bsize false files).files_processed = 2 * files.length
      ∧ (smartProcessRun resultOf bsize false files).files_total = files.length
      ∧ (files ≠ [] →
         (smartProcessRun resultOf bsize false files).files_total <
           (smartProcessRun resultOf bsize false files).files_processed) := by
  intro resultOf bsize files hb h
  unfold smartProcessRun
  by_cases hf : files = []
  · subst hf
    simp
  · rw [if_neg hf]
    have hspec := smartLoopGo_spec resultOf bsize hb files.length files
      { status := "running", files_processed := 0, files_total := files.length,
        current_file := none, errors := [] } (Nat.le_refl _) h
    have hlp := List.length_pos.mpr hf
    refine ⟨by simp [hspec.1], by simp [hspec.2], fun _ => ?_⟩
    simp [hspec.1, hspec.2]
    omega

/-- Witness for C10 at a concrete two-file all-success run: `files_processed`
ends at 4 while `files_total` is 2. -/
theorem claim_C10_double_counting_witness :
    (smartProcessRun (fun _ => PerFileResult.returned (some ())) 25 false
      [fileHashed, fileNoHash]).files_processed = 4 ∧
    (smartProcessRun (fun _ => PerFileResult.returned (some ())) 25 false
      [fileHashed, fileNoHash]).files_total = 2 := by
  have h := claim_C10_double_counting (fun _ => PerFileResult.returned (some ())) 25
    [fileHashed, fileNoHash] (by decide) (fun _ _ => rfl)
  exact ⟨h.1, h.2.1⟩

/-- `store_files` writes exactly the `upsertAll` fold into the table. -/
theorem storeFiles_rows (db : CacheDB) (files : List DropboxFile) (b : Bool) (now : String) :
    (storeFiles db files b now).2.rows = upsertAll db.rows now files := rfl

/-- One step of the `store_files` fold. -/
theorem upsertAll_cons (rows : List CacheRow) (now : String) (f : DropboxFile)
    (l : List DropboxFile) :
    upsertAll rows now (f :: l) = upsertAll (insertOrReplace rows (cacheRowOf now f)) now l :=
  rfl

/-- Unfold conflict-freedom over the head record. -/
theorem conflictFree_cons (f : DropboxFile) (l : List DropboxFile) (q : CacheRow) :
    conflictFree (f :: l) q =
      (decide (q.id ≠ f.id ∧ q.path_lower ≠ f.path_lower) && conflictFree l q) := by
  simp [conflictFree, List.all_cons]

/-- The INSERT OR REPLACE of one file's row, with the conflict test stated
against the file's own key fields. -/
theorem insertOrReplace_cacheRowOf (rows : List CacheRow) (now : String) (f : DropboxFile) :
    insertOrReplace rows (cacheRowOf now f) =
      rows.filter (fun q => decide (q.id ≠ f.id ∧ q.path_lower ≠ f.path_lower)) ++
        [cacheRowOf now f] := rfl

/-- Decomposition of the `store_files` fold: the surviving old rows are
exactly those conflict-free against the whole batch, followed by the rows the
batch itself wrote (the fold started from the empty table). -/
theorem upsertAll_decomp :
    ∀ (l : List DropboxFile) (rows : List CacheRow) (now : String),
      upsertAll rows now l = rows.filter (conflictFree l) ++ upsertAll [] now l := by
  intro l
  induction l with
  | nil =>
    intro rows now
    have h1 : List.filter (conflictFree []) rows = rows :=
      List.filter_eq_self.mpr (fun q _ => by simp [conflictFree])
    rw [show upsertAll [] now [] = ([] : List CacheRow) from rfl, List.append_nil, h1]
    rfl
  | cons f t ih =>
    intro rows now
    rw [upsertAll_cons rows, upsertAll_cons ([]), insertOrReplace_cacheRowOf,
      insertOrReplace_cacheRowOf, List.filter_nil, List.nil_append,
      ih (rows.filter (fun q => decide (q.id ≠ f.id ∧ q.path_lower ≠ f.path_lower)) ++
        [cacheRowOf now f]) now,
      ih [cacheRowOf now f] now, List.filter_append, List.filter_filter, List.append_assoc]
    congr 1
    exact List.filter_congr (fun q _ => by rw [conflictFree_cons]; exact Bool.and_comm _ _)

/-- Every row written by the batch conflicts with some record of the batch
(its own source record at least). -/
theorem winners_mem_conflict :
    ∀ (l : List DropboxFile) (now : String) (q : CacheRow),
      q ∈ upsertAll [] now l → conflictFree l q = false := by
  intro l
  induction l with
  | nil =>
    intro now q hq
    simp [upsertAll] at hq
  | cons f t ih =>
    intro now q hq
    rw [upsertAll_cons, insertOrReplace_cacheRowOf, List.filter_nil, List.nil_append,
      upsertAll_decomp] at hq
    rw [List.mem_append] at hq
    rcases hq with hq | hq
    · rw [List.mem_filter, List.mem_singleton] at hq
      rw [hq.1, conflictFree_cons]
      simp [cacheRowOf]
    · rw [conflictFree_cons, ih now q hq]
      simp
/-- The rows a batch writes differ between two calls only in their timestamp
columns. -/
theorem winners_restamp :
    ∀ (l : List DropboxFile) (t1 t2 : String),
      upsertAll [] t2 l = (upsertAll [] t1 l).map (restamp t2) := by
  intro l
  induction l with
  | nil => intro t1 t2; rfl
  | cons f t ih =>
    intro t1 t2
    rw [upsertAll_cons, upsertAll_cons, insertOrReplace_cacheRowOf, insertOrReplace_cacheRowOf]
    simp only [List.filter_nil, List.nil_append]
    rw [upsertAll_decomp t [cacheRowOf t2 f] t2, upsertAll_decomp t [cacheRowOf t1 f] t1,
      List.map_append]
    congr 1
    · rw [List.filter_singleton, List.filter_singleton]
      cases hcond : conflictFree t (cacheRowOf t1 f) with
      | false =>
        have h2 : conflictFree t (cacheRowOf t2 f) = false := hcond
        rw [h2]
        rfl
      | true =>
        have h2 : conflictFree t (cacheRowOf t2 f) = true := hcond
        rw [h2]
        rfl
    · exact ih t1 t2

/-- C8.  Idempotent upsert: calling `store_files` twice with the identical
record set leaves `get_files`' output unchanged — same records, same field
values, in the same path-ordered sequence as after the first call (only the
per-call timestamp columns, which `get_files` does not return, differ) — and
returns the same stored count. -/
theorem claim_C8_idempotent_upsert :
    ∀ (db : CacheDB) (files : List DropboxFile) (b1 b2 : Bool) (t1 t2 : String),
      getFiles (storeFiles (storeFiles db files b1 t1).2 files b2 t2).2 =
        getFiles (storeFiles db files b1 t1).2
      ∧ (storeFiles (storeFiles db files b1 t1).2 files b2 t2).1 =
        (storeFiles db files b1 t1).1 := by
  intro db files b1 b2 t1 t2
  refine ⟨?_, rfl⟩
  have hself : (db.rows.filter fun a => conflictFree files a && conflictFree files a) =
      db.rows.filter (conflictFree files) :=
    List.filter_congr (fun q _ => Bool.and_self _)
  have hW1 : (upsertAll [] t1 files).filter (conflictFree files) = [] :=
    List.filter_eq_nil_iff.mpr
      (fun q hq => by rw [winners_mem_conflict files t1 q hq]; simp)
  have hrows2 : (storeFiles (storeFiles db files b1 t1).2 files b2 t2).2.rows =
      db.rows.filter (conflictFree files) ++ upsertAll [] t2 files := by
    rw [storeFiles_rows, storeFiles_rows,
      upsertAll_decomp files (upsertAll db.rows t1 files) t2,
      upsertAll_decomp files db.rows t1, List.filter_append, List.filter_filter,
      hself, hW1, List.append_nil]
  have hrows1 : (storeFiles db files b1 t1).2.rows =
      db.rows.filter (conflictFree files) ++ upsertAll [] t1 files := by
    rw [storeFiles_rows, upsertAll_decomp files db.rows t1]
  unfold getFiles
  congr 1
  rw [hrows2, hrows1, winners_restamp files t1 t2,
    List.filter_append, List.filter_append, List.map_append, List.map_append]
  congr 1
  rw [List.filter_map, List.map_map]
  rfl
